import Mathlib

/-!
# Verification of the event-catalog-pipeline repository

Shallow embedding of the core logic of the repository (files `db.py`,
`parser.py`, `ein_enrichment.py`): identity hashing and deduplicating
upsert, the JSON response decoder, completeness-driven escalation and
its merge policy, EIN location, multi-provider search failover and the
batch enrichment loop.  External collaborators (MySQL connection, HTTP,
the OpenAI client, SerpAPI / Google CSE transports, `dateutil` fuzzy
date parsing) are modelled as explicit oracle parameters; everything the
repository computes itself is translated directly from the source.

Python strings are modelled as Lean `String`; the Python `str` methods
used by the code (`strip`, `lower`, `startswith`, `endswith`, `replace`,
`split`) are defined below over `List Char` so that every definition is
executable and kernel-reducible.  `str.lower`/`str.strip` are faithful
on the ASCII inputs the pipeline handles (Lean's `Char.toLower` is
ASCII-only; Python's `str.strip` additionally strips `\x0b`/`\x0c`,
which we include).
-/

namespace EventCatalog

/-! ## Python string primitives -/

/-- Python `str.strip()` whitespace class: space, `\t`, `\n`, `\r`, `\x0b`, `\x0c`. -/
def pyWs (c : Char) : Bool :=
  c = ' ' || c = '\t' || c = '\n' || c = '\r' || c = '\x0b' || c = '\x0c'

/-- Python `str.strip()`. -/
def pyStrip (s : String) : String :=
  ⟨((s.data.dropWhile pyWs).reverse.dropWhile pyWs).reverse⟩

/-- Python `str.lower()` (ASCII model). -/
def pyLower (s : String) : String :=
  ⟨s.data.map Char.toLower⟩

/-- `pre` is a prefix of `cs` (char-list version of Python `str.startswith`). -/
def listStarts : List Char → List Char → Bool
  | [], _ => true
  | _ :: _, [] => false
  | p :: ps, c :: cs => p = c && listStarts ps cs

/-- Python `s.startswith(pre)`. -/
def strStarts (s pre : String) : Bool := listStarts pre.data s.data

/-- Python `s.endswith(suf)`. -/
def strEnds (s suf : String) : Bool := listStarts suf.data.reverse s.data.reverse

/-- Python `s.replace(a, b)` for single characters. -/
def charReplace (s : String) (a b : Char) : String :=
  ⟨s.data.map (fun c => if c = a then b else c)⟩

/-! ## SHA-256 (`hashlib.sha256` used by `db.generate_uid`)

A complete executable SHA-256 over `Nat` words (all arithmetic is
explicitly reduced mod `2^32`). -/

/-- Truncate to a 32-bit word. -/
def w32 (n : Nat) : Nat := n % 4294967296

/-- Rotate a 32-bit word right by `n` (for `1 ≤ n ≤ 31`). -/
def rotr32 (n x : Nat) : Nat := w32 (x / 2 ^ n + x % 2 ^ n * 2 ^ (32 - n))

def shaCh (x y z : Nat) : Nat := Nat.xor (Nat.land x y) (Nat.land (Nat.xor x 4294967295) z)

def shaMaj (x y z : Nat) : Nat :=
  Nat.xor (Nat.xor (Nat.land x y) (Nat.land x z)) (Nat.land y z)

def shaS0 (x : Nat) : Nat := Nat.xor (Nat.xor (rotr32 2 x) (rotr32 13 x)) (rotr32 22 x)

def shaS1 (x : Nat) : Nat := Nat.xor (Nat.xor (rotr32 6 x) (rotr32 11 x)) (rotr32 25 x)

def shas0 (x : Nat) : Nat := Nat.xor (Nat.xor (rotr32 7 x) (rotr32 18 x)) (x / 8)

def shas1 (x : Nat) : Nat := Nat.xor (Nat.xor (rotr32 17 x) (rotr32 19 x)) (x / 1024)

/-- The 64 SHA-256 round constants (fractional parts of cube roots of the
first 64 primes). -/
def shaK : List Nat :=
  [1116352408, 1899447441, 3049323471, 3921009573, 961987163, 1508970993, 2453635748,
   2870763221, 3624381080, 310598401, 607225278, 1426881987, 1925078388, 2162078206,
   2614888103, 3248222580, 3835390401, 4022224774, 264347078, 604807628, 770255983,
   1249150122, 1555081692, 1996064986, 2554220882, 2821834349, 2952996808, 3210313671,
   3336571891, 3584528711, 113926993, 338241895, 666307205, 773529912, 1294757372,
   1396182291, 1695183700, 1986661051, 2177026350, 2456956037, 2730485921, 2820302411,
   3259730800, 3345764771, 3516065817, 3600352804, 4094571909, 275423344, 430227734,
   506948616, 659060556, 883997877, 958139571, 1322822218, 1537002063, 1747873779,
   1955562222, 2024104815, 2227730452, 2361852424, 2428436474, 2756734187, 3204031479,
   3329325298]

/-- The initial SHA-256 hash state. -/
def shaH0 : List Nat :=
  [1779033703, 3144134277, 1013904242, 2773480762, 1359893119, 2600822924, 528734635,
   1541459225]

/-- Extend a 16-word block to the 64-word message schedule. -/
def shaExtend : Nat → List Nat → List Nat
  | 0, ws => ws
  | n + 1, ws =>
    let l := ws.length
    let nw := w32 (shas1 (ws.getD (l - 2) 0) + ws.getD (l - 7) 0 +
                   shas0 (ws.getD (l - 15) 0) + ws.getD (l - 16) 0)
    shaExtend n (ws ++ [nw])

/-- One round of the SHA-256 compression function on the state `[a,b,c,d,e,f,g,h]`. -/
def shaRound (st : List Nat) (kw : Nat × Nat) : List Nat :=
  match st with
  | [a, b, c, d, e, f, g, h] =>
    let t1 := h + shaS1 e + shaCh e f g + kw.1 + kw.2
    let t2 := shaS0 a + shaMaj a b c
    [w32 (t1 + t2), a, b, c, w32 (d + t1), e, f, g]
  | st => st

/-- Compress one 512-bit block (given as 16 words) into the hash state. -/
def shaCompress (h : List Nat) (block : List Nat) : List Nat :=
  let ws := shaExtend 48 block
  let fin := (shaK.zip ws).foldl shaRound h
  (h.zip fin).map (fun p => w32 (p.1 + p.2))

/-- Big-endian bytes of `n`, `k` bytes wide. -/
def beBytes : Nat → Nat → List Nat
  | 0, _ => []
  | k + 1, n => n / 256 ^ k % 256 :: beBytes k n

/-- SHA-256 padding of a byte sequence. -/
def shaPad (bytes : List Nat) : List Nat :=
  let l := bytes.length
  let zeros := (55 + 64 - l % 64) % 64
  bytes ++ 128 :: List.replicate zeros 0 ++ beBytes 8 (8 * l)

/-- Pack bytes into big-endian 32-bit words. -/
def toWords : List Nat → List Nat
  | b0 :: b1 :: b2 :: b3 :: rest =>
    (((b0 * 256 + b1) * 256 + b2) * 256 + b3) :: toWords rest
  | _ => []

/-- Split a word sequence into 16-word blocks (fuel-driven, fuel bounds the
number of blocks). -/
def toBlocks : Nat → List Nat → List (List Nat)
  | 0, _ => []
  | _ + 1, [] => []
  | n + 1, ws => ws.take 16 :: toBlocks n (ws.drop 16)

/-- UTF-8 encoding of a Unicode code point. -/
def utf8Enc (n : Nat) : List Nat :=
  if n < 128 then [n]
  else if n < 2048 then [192 + n / 64, 128 + n % 64]
  else if n < 65536 then [224 + n / 4096, 128 + n / 64 % 64, 128 + n % 64]
  else [240 + n / 262144, 128 + n / 4096 % 64, 128 + n / 64 % 64, 128 + n % 64]

/-- UTF-8 bytes of a string (Python `s.encode("utf-8")`). -/
def utf8Bytes (s : String) : List Nat :=
  s.data.foldr (fun c acc => utf8Enc c.toNat ++ acc) []

def hexChar (n : Nat) : Char :=
  if n < 10 then Char.ofNat (48 + n) else Char.ofNat (87 + n)

/-- Lower-case hex digits of a 32-bit word. -/
def wordHex (n : Nat) : List Char :=
  [hexChar (n / 268435456 % 16), hexChar (n / 16777216 % 16),
   hexChar (n / 1048576 % 16), hexChar (n / 65536 % 16),
   hexChar (n / 4096 % 16), hexChar (n / 256 % 16),
   hexChar (n / 16 % 16), hexChar (n % 16)]

/-- `hashlib.sha256(s.encode("utf-8")).hexdigest()`. -/
def sha256_hex (s : String) : String :=
  let bytes := shaPad (utf8Bytes s)
  let words := toWords bytes
  let blocks := toBlocks (words.length / 16 + 1) words
  let st := blocks.foldl shaCompress shaH0
  ⟨st.foldr (fun wrd acc => wordHex wrd ++ acc) []⟩

example : sha256_hex "abc" =
    "ba7816bf8f01cfea414140de5dae2223b00361a396177a9cb410ff61f20015ad" := by decide

example : sha256_hex "" =
    "e3b0c44298fc1c149afbf4c8996fb92427ae41e4649b934ca495991b7852b855" := by decide

example : sha256_hex "example gala-example.org" =
    "e56c64ed26f54a14178f111dff4cbaf1054109bb0590eca6b068101ea53efe3b" := by decide

/-! ## Python values and dicts

Schema fields hold either Python `None` or a string (the LLM is prompted
to return string fields; `""` encodes "unknown").  A dict is an
insertion-ordered association list; `setKey` mirrors `d[k] = v`
(in-place update of an existing key, append otherwise) and `getKey`
mirrors `d.get(k)`. -/

inductive PyVal where
  | null : PyVal
  | s : String → PyVal
deriving DecidableEq

/-- A Python dict of schema fields. -/
abbrev Rec' := List (String × PyVal)

/-- `d.get(k)` (`Option.none` = key absent). -/
def getKey (d : Rec') (k : String) : Option PyVal :=
  match d.find? (fun p => p.1 = k) with
  | Option.none => Option.none
  | some p => some p.2

/-- `d[k] = v`. -/
def setKey : Rec' → String → PyVal → Rec'
  | [], k, v => [(k, v)]
  | (k', v') :: rest, k, v =>
    if k' = k then (k, v) :: rest else (k', v') :: setKey rest k v

/-- Python truthiness of a field value (`None` and `""` are falsy). -/
def pvTruthy : PyVal → Bool
  | PyVal.null => false
  | PyVal.s str => str ≠ ""

/-- Truthiness of `d.get(k)` (absent keys behave like `None`). -/
def optTruthy : Option PyVal → Bool
  | Option.none => false
  | some v => pvTruthy v

/-- Python `str(v)` of a field value (`str(None) = "None"`). -/
def pvStr : PyVal → String
  | PyVal.null => "None"
  | PyVal.s str => str

/-- Python `str(d.get(k))`. -/
def optStr : Option PyVal → String
  | Option.none => "None"
  | some v => pvStr v

/-! ## `db.py`: identity hashing and deduplicating upsert -/

/-- `db.generate_uid(*args)`: the string joined (with `"-"`) from the
truthy arguments, each passed through `str(a).lower().strip()`.  This is
the exact preimage handed to `hashlib.sha256`. -/
def generate_uid_raw (args : List (Option PyVal)) : String :=
  String.intercalate "-"
    (args.filterMap (fun a =>
      if optTruthy a then some (pyStrip (pyLower (optStr a))) else Option.none))

/-- `db.generate_uid(*args)`: SHA-256 hex digest of the joined normalized
key fields, truncated to 64 characters (the full digest length). -/
def generate_uid (args : List (Option PyVal)) : String :=
  ⟨(sha256_hex (generate_uid_raw args)).data.take 64⟩

/-- A stored `organizers` row (`db.create_tables`). -/
structure OrgRow where
  id : Nat
  uid : String
  name : Option PyVal
  ein : Option PyVal
  website : Option PyVal
  email : Option PyVal
  phone : Option PyVal
  contact_name : Option PyVal
  contact_title : Option PyVal
  contact_email : Option PyVal
  facebook : Option PyVal
  instagram : Option PyVal
deriving DecidableEq

/-- The `organizers` table: rows plus the `AUTO_INCREMENT` counter. -/
structure OrgDB where
  rows : List OrgRow
  nextId : Nat
deriving DecidableEq

/-- `db.insert_organizer(data)` (success path; a failed MySQL connection
returns `None` without touching the table and is outside this model).
`INSERT ... ON DUPLICATE KEY UPDATE id=LAST_INSERT_ID(id)`: when a row
with the same `uid` exists, no stored field changes and `cursor.lastrowid`
is that row's id; otherwise the row is inserted under a fresh id. -/
def insert_organizer (data : Rec') (db : OrgDB) : Nat × OrgDB :=
  let uid := generate_uid [getKey data "organizer_name", getKey data "organizer_website"]
  match db.rows.find? (fun r => r.uid = uid) with
  | some r => (r.id, db)
  | Option.none =>
    (db.nextId,
     { rows := db.rows ++
         [{ id := db.nextId, uid := uid,
            name := getKey data "organizer_name",
            ein := getKey data "organizer_ein",
            website := getKey data "organizer_website",
            email := getKey data "organizer_email",
            phone := getKey data "organizer_phone",
            contact_name := getKey data "organizer_contact_name",
            contact_title := getKey data "organizer_contact_title",
            contact_email := getKey data "organizer_contact_email",
            facebook := getKey data "organizer_facebook",
            instagram := getKey data "organizer_instagram" }],
       nextId := db.nextId + 1 })

/-- A stored `events` row (key fields plus the remaining payload as the
tuple the `INSERT` receives). -/
structure EvRow where
  id : Nat
  uid : String
  name : Option PyVal
  date : Option PyVal
  venue_name : Option PyVal
  payload : List (Option PyVal)
  organizer_id : Option Nat
deriving DecidableEq

structure EvDB where
  rows : List EvRow
  nextId : Nat
deriving DecidableEq

/-- `db.insert_event(data, organizer_id)` normalizes a blank `event_date`
to `None` before hashing. -/
def normalize_blank_date (d : Option PyVal) : Option PyVal :=
  if ¬ optTruthy d || pyStrip (optStr d) = "" then Option.none else d

/-- `db.insert_event(data, organizer_id)` (success path).
`INSERT ... ON DUPLICATE KEY UPDATE id=id`: when a row with the same
`uid` exists nothing at all changes; Python returns `None` either way. -/
def insert_event (data : Rec') (organizer_id : Option Nat) (db : EvDB) : EvDB :=
  let event_date := normalize_blank_date (getKey data "event_date")
  let uid := generate_uid [getKey data "event_name", event_date, getKey data "venue_name"]
  match db.rows.find? (fun r => r.uid = uid) with
  | some _ => db
  | Option.none =>
    { rows := db.rows ++
        [{ id := db.nextId, uid := uid,
           name := getKey data "event_name",
           date := event_date,
           venue_name := getKey data "venue_name",
           payload := [getKey data "event_type", getKey data "description",
             getKey data "venue_address", getKey data "venue_city",
             getKey data "venue_state", getKey data "venue_zip",
             getKey data "venue_parking", getKey data "venue_website",
             getKey data "registration_url", getKey data "sponsorship_url",
             getKey data "sponsorship_tiers", getKey data "sponsorship_contact",
             getKey data "past_sponsors", getKey data "dress_code"],
           organizer_id := organizer_id }],
      nextId := db.nextId + 1 }

example :
    generate_uid [some (PyVal.s "Example Gala"), some (PyVal.s "example.org")] =
      generate_uid [some (PyVal.s " EXAMPLE GALA "), some (PyVal.s "example.org")] := by
  decide

/-! ## JSON values and `json.loads`

A strict recursive-descent JSON parser modelling Python's `json.loads`
on the inputs the decoder handles: objects, arrays, double-quoted
strings with escapes, numbers (kept as their lexeme, including Python's
non-standard `NaN`/`Infinity` literals), `true`/`false`/`null`.
Single-quoted strings, unquoted keys and trailing commas are rejected,
exactly the failures the decoder's retry path exists for.  The parser
is fuel-indexed (fuel bounds nesting depth; the top-level call supplies
more fuel than the input length, so it never runs out on real input);
parse failure is `Option.none` — Python's raised `JSONDecodeError`. -/

inductive JVal where
  | jnull : JVal
  | jbool : Bool → JVal
  | jnum : String → JVal
  | jstr : String → JVal
  | jarr : List JVal → JVal
  | jobj : List (String × JVal) → JVal

/-- Is the value a JSON object (a Python mapping)? -/
def JVal.isObj : JVal → Bool
  | JVal.jobj _ => true
  | _ => false

/-- JSON whitespace (`json.decoder.WHITESPACE`). -/
def jsonWs (c : Char) : Bool := c = ' ' || c = '\t' || c = '\n' || c = '\r'

def skipWs (cs : List Char) : List Char := cs.dropWhile jsonWs

def isDig (c : Char) : Bool := '0' ≤ c && c ≤ '9'

def hexVal (c : Char) : Option Nat :=
  if isDig c then some (c.toNat - 48)
  else if 'a' ≤ c && c ≤ 'f' then some (c.toNat - 87)
  else if 'A' ≤ c && c ≤ 'F' then some (c.toNat - 55)
  else Option.none

/-- Body of a JSON string after the opening quote: returns the decoded
characters and the rest after the closing quote.  Raw control characters
are rejected (strict mode). -/
def parseStrBody : Nat → List Char → Option (List Char × List Char)
  | 0, _ => Option.none
  | _ + 1, [] => Option.none
  | fuel + 1, c :: cs =>
    if c = '"' then some ([], cs)
    else if c = '\\' then
      match cs with
      | [] => Option.none
      | e :: cs' =>
        let dec : Option (Char × List Char) :=
          if e = '"' then some ('"', cs')
          else if e = '\\' then some ('\\', cs')
          else if e = '/' then some ('/', cs')
          else if e = 'b' then some ('\x08', cs')
          else if e = 'f' then some ('\x0c', cs')
          else if e = 'n' then some ('\n', cs')
          else if e = 'r' then some ('\r', cs')
          else if e = 't' then some ('\t', cs')
          else if e = 'u' then
            match cs' with
            | h1 :: h2 :: h3 :: h4 :: cs'' =>
              match hexVal h1, hexVal h2, hexVal h3, hexVal h4 with
              | some a, some b, some c', some d =>
                some (Char.ofNat (((a * 16 + b) * 16 + c') * 16 + d), cs'')
              | _, _, _, _ => Option.none
            | _ => Option.none
          else Option.none
        match dec with
        | some (ch, rest) =>
          match parseStrBody fuel rest with
          | some (tl, rest') => some (ch :: tl, rest')
          | Option.none => Option.none
        | Option.none => Option.none
    else if c.toNat < 32 then Option.none
    else
      match parseStrBody fuel cs with
      | some (tl, rest') => some (c :: tl, rest')
      | Option.none => Option.none

/-- Lexeme of a JSON number starting at the head of `cs`
(grammar `-?(0|[1-9][0-9]*)(\.[0-9]+)?([eE][+-]?[0-9]+)?`). -/
def parseNumLex (cs : List Char) : Option (List Char × List Char) :=
  let (sgn, cs1) :=
    match cs with
    | '-' :: rest => (['-'], rest)
    | _ => (([] : List Char), cs)
  let intPart : Option (List Char × List Char) :=
    match cs1 with
    | '0' :: rest => some (['0'], rest)
    | c :: _ =>
      if isDig c then some (cs1.takeWhile isDig, cs1.dropWhile isDig)
      else Option.none
    | [] => Option.none
  match intPart with
  | Option.none => Option.none
  | some (ip, cs2) =>
    let (fp, cs3) :=
      match cs2 with
      | '.' :: rest =>
        if (rest.takeWhile isDig).isEmpty then (([] : List Char), cs2)
        else ('.' :: rest.takeWhile isDig, rest.dropWhile isDig)
      | _ => (([] : List Char), cs2)
    let frInvalid :=
      match cs2 with
      | '.' :: rest => (rest.takeWhile isDig).isEmpty
      | _ => false
    if frInvalid then Option.none
    else
      let (ep, cs4) :=
        match cs3 with
        | e :: rest =>
          if e = 'e' || e = 'E' then
            let (s, rest') :=
              match rest with
              | '+' :: r => (['+'], r)
              | '-' :: r => (['-'], r)
              | _ => (([] : List Char), rest)
            if (rest'.takeWhile isDig).isEmpty then (([] : List Char), cs3)
            else (e :: (s ++ rest'.takeWhile isDig), rest'.dropWhile isDig)
          else (([] : List Char), cs3)
        | [] => (([] : List Char), cs3)
      some (sgn ++ ip ++ fp ++ ep, cs4)

mutual

/-- Parse one JSON value (after skipping leading whitespace). -/
def parseVal : Nat → List Char → Option (JVal × List Char)
  | 0, _ => Option.none
  | fuel + 1, cs =>
    match skipWs cs with
    | [] => Option.none
    | c :: rest =>
      if c = '{' then
        match parseMembers fuel rest true with
        | some (fs, rest') => some (JVal.jobj fs, rest')
        | Option.none => Option.none
      else if c = '[' then
        match parseItems fuel rest true with
        | some (xs, rest') => some (JVal.jarr xs, rest')
        | Option.none => Option.none
      else if c = '"' then
        match parseStrBody fuel rest with
        | some (chars, rest') => some (JVal.jstr ⟨chars⟩, rest')
        | Option.none => Option.none
      else if listStarts ['t', 'r', 'u', 'e'] (c :: rest) then
        some (JVal.jbool true, rest.drop 3)
      else if listStarts ['f', 'a', 'l', 's', 'e'] (c :: rest) then
        some (JVal.jbool false, rest.drop 4)
      else if listStarts ['n', 'u', 'l', 'l'] (c :: rest) then
        some (JVal.jnull, rest.drop 3)
      else if listStarts ['N', 'a', 'N'] (c :: rest) then
        some (JVal.jnum "NaN", rest.drop 2)
      else if listStarts ['I', 'n', 'f', 'i', 'n', 'i', 't', 'y'] (c :: rest) then
        some (JVal.jnum "Infinity", rest.drop 7)
      else if listStarts ['-', 'I', 'n', 'f', 'i', 'n', 'i', 't', 'y'] (c :: rest) then
        some (JVal.jnum "-Infinity", rest.drop 8)
      else
        match parseNumLex (c :: rest) with
        | some (lex, rest') => some (JVal.jnum ⟨lex⟩, rest')
        | Option.none => Option.none

/-- Parse object members after `{` (`first = true` allows an immediate `}`). -/
def parseMembers : Nat → List Char → Bool → Option (List (String × JVal) × List Char)
  | 0, _, _ => Option.none
  | fuel + 1, cs, first =>
    match skipWs cs with
    | [] => Option.none
    | c :: rest =>
      if first && c = '}' then some ([], rest)
      else if c = '"' then
        match parseStrBody fuel rest with
        | Option.none => Option.none
        | some (kc, rest') =>
          match skipWs rest' with
          | ':' :: rest'' =>
            match parseVal fuel rest'' with
            | Option.none => Option.none
            | some (v, rest3) =>
              match skipWs rest3 with
              | ',' :: rest4 =>
                match parseMembers fuel rest4 false with
                | some (fs, rest5) => some ((⟨kc⟩, v) :: fs, rest5)
                | Option.none => Option.none
              | '}' :: rest4 => some ([(⟨kc⟩, v)], rest4)
              | _ => Option.none
          | _ => Option.none
      else Option.none

/-- Parse array items after `[`. -/
def parseItems : Nat → List Char → Bool → Option (List JVal × List Char)
  | 0, _, _ => Option.none
  | fuel + 1, cs, first =>
    match skipWs cs with
    | [] => Option.none
    | c :: rest =>
      if first && c = ']' then some ([], rest)
      else
        match parseVal fuel (c :: rest) with
        | Option.none => Option.none
        | some (v, rest') =>
          match skipWs rest' with
          | ',' :: rest'' =>
            match parseItems fuel rest'' false with
            | some (xs, rest3) => some (v :: xs, rest3)
            | Option.none => Option.none
          | ']' :: rest'' => some ([v], rest'')
          | _ => Option.none

end

/-- `json.loads(s)`: parse one value, demand only whitespace after it. -/
def json_loads (s : String) : Option JVal :=
  match parseVal (s.data.length + 1) s.data with
  | some (v, rest) => if (skipWs rest).isEmpty then some v else Option.none
  | Option.none => Option.none

/-! ## The Response Decoder (`safe_json` in `parser.py` / `ein_enrichment.py`)

`re.sub(r"^```json|^```|```$", "", text.strip(), flags=IGNORECASE|MULTILINE)`
acts per line (no pattern piece crosses a newline): strip a leading
```` ```json ```` (case-insensitive `json`) else a leading ```` ``` ````,
then one trailing ```` ``` ```` from what remains. -/

/-- Does the line start with ```` ```json ````, `json` case-insensitive? -/
def startsFenceJson (l : String) : Bool :=
  strStarts l "```" && pyLower ⟨(l.data.drop 3).take 4⟩ = "json"

/-- Strip the code-fence markers of one line. -/
def stripFenceLine (l : String) : String :=
  let l1 : String :=
    if startsFenceJson l then ⟨l.data.drop 7⟩
    else if strStarts l "```" then ⟨l.data.drop 3⟩
    else l
  if strEnds l1 "```" then ⟨l1.data.take (l1.data.length - 3)⟩ else l1

/-- Split on `'\n'` (Python's `^`/`$` line structure under `re.MULTILINE`). -/
def splitNlAux : List Char → List Char → List String
  | [], acc => [⟨acc.reverse⟩]
  | '\n' :: rest, acc => ⟨acc.reverse⟩ :: splitNlAux rest []
  | c :: rest, acc => splitNlAux rest (c :: acc)

def splitNl (s : String) : List String := splitNlAux s.data []

/-- Rejoin lines with `'\n'`. -/
def joinNl : List String → List Char
  | [] => []
  | [l] => l.data
  | l :: rest => l.data ++ '\n' :: joinNl rest

/-- The fence-stripping `re.sub` applied to `text.strip()`, followed by
the outer `.strip()`. -/
def stripFences (text : String) : String :=
  pyStrip ⟨joinNl ((splitNl (pyStrip text)).map stripFenceLine)⟩

/-- `re.search(r"\{.*\}", s, flags=re.DOTALL)`: greedy, so the match (if
any) runs from the first `{` to the last `}` of the whole string. -/
def braceSpan (s : String) : Option String :=
  let cs := s.data
  let i := cs.findIdx (· = '{')
  let j := cs.length - 1 - cs.reverse.findIdx (· = '}')
  if i < cs.length && cs.reverse.findIdx (· = '}') < cs.length && i < j then
    some ⟨(cs.take (j + 1)).drop i⟩
  else Option.none

/-- The text `safe_json` hands to `json.loads`: fences stripped, then
the first brace-delimited span extracted when the remainder does not
start with `{`. -/
def safe_json_cleaned (text : String) : String :=
  let cleaned := stripFences text
  if strStarts (pyStrip cleaned) "\x7b" then cleaned
  else
    match braceSpan cleaned with
    | some m => m
    | Option.none => cleaned

/-- `cleaned.replace("'", "\"")`. -/
def swapQuotes (s : String) : String := charReplace s '\'' '"'

/-- The parse-then-retry tail of `safe_json`: strict parse, one retry
with single quotes swapped for double quotes, else the empty mapping. -/
def safe_json_decode (cleaned : String) : JVal :=
  match json_loads cleaned with
  | some v => v
  | Option.none =>
    match json_loads (swapQuotes cleaned) with
    | some v => v
    | Option.none => JVal.jobj []

/-- `safe_json(text)` (`parser.py` line 53 and, identically,
`ein_enrichment.py` line 65): total — every Python exception path is an
internal `except` that falls through to the next strategy or to `{}`. -/
def safe_json (text : String) : JVal :=
  if text = "" then JVal.jobj []
  else safe_json_decode (safe_json_cleaned text)

example : safe_json "```json\n\x7b\"event_name\": \"Gala\"\x7d\n```" =
    JVal.jobj [("event_name", JVal.jstr "Gala")] := by rfl

example : safe_json "Sure! Here you go: \x7b'event_name': 'Gala'\x7d" =
    JVal.jobj [("event_name", JVal.jstr "Gala")] := by rfl

example : safe_json "no json here at all" = JVal.jobj [] := by rfl

example : safe_json "null" = JVal.jnull := by rfl

-- Edge cases of the per-line fence `re.sub`, checked against CPython.
example : stripFenceLine "``````" = "" := by rfl
example : stripFenceLine "x``````" = "x```" := by rfl
example : stripFenceLine "```JSON" = "" := by rfl
example : stripFenceLine "```Json stuff" = " stuff" := by rfl
example : stripFenceLine "``` ```json" = " ```json" := by rfl
example : stripFenceLine "`````" = "``" := by rfl

-- Greedy `\x7b.*\x7d` span extraction, checked against CPython.
example : braceSpan "\x7da\x7bb\x7d" = some "\x7bb\x7d" := by rfl
example : braceSpan "\x7d\x7b" = Option.none := by rfl
example : braceSpan "a \x7b x \x7d b \x7d c" = some "\x7b x \x7d b \x7d" := by rfl
example : braceSpan "\x7b no close" = Option.none := by rfl

/-! ## `parser.py`: field utilities, escalation, merge, per-link pipeline -/

/-- `parser.REQUIRED_FIELDS`. -/
def REQUIRED_FIELDS : List String :=
  ["event_name", "event_date", "event_type", "description", "venue_name",
   "venue_address", "venue_city", "venue_state", "venue_zip", "venue_parking",
   "venue_website", "registration_url", "sponsorship_url", "sponsorship_tiers",
   "sponsorship_contact", "past_sponsors", "dress_code", "organizer_name",
   "organizer_ein", "organizer_website", "organizer_email", "organizer_phone",
   "organizer_contact_name", "organizer_contact_title", "organizer_contact_email",
   "organizer_facebook", "organizer_instagram"]

/-- Is the field value missing (`v is None or str(v).strip() == ""`, with an
absent key read as `None` by `parsed.get(f)`)? -/
def field_missing (cur : Option PyVal) : Bool :=
  match cur with
  | Option.none => true
  | some PyVal.null => true
  | some (PyVal.s str) => pyStrip str = ""

/-- `parser.count_missing_fields(parsed)`. -/
def count_missing_fields (parsed : Rec') : Nat :=
  if parsed.isEmpty then REQUIRED_FIELDS.length
  else (REQUIRED_FIELDS.filter (fun f => field_missing (getKey parsed f))).length

/-- `parser.MISSING_FIELDS_THRESHOLD`. -/
def MISSING_FIELDS_THRESHOLD : Nat := 4

/-- `parser.clean_text(s)`: `None` for falsy input, else whitespace runs
collapsed to single spaces (`re.sub(r"\s+", " ", str(s))`) and stripped. -/
def collapseWsAux : List Char → Bool → List Char
  | [], _ => []
  | c :: rest, inWs =>
    if pyWs c then
      if inWs then collapseWsAux rest true else ' ' :: collapseWsAux rest true
    else c :: collapseWsAux rest false

def clean_text (v : Option PyVal) : Option PyVal :=
  if ¬ optTruthy v then Option.none
  else some (PyVal.s (pyStrip ⟨collapseWsAux (optStr v).data false⟩))

/-- The merge condition of `process_links` (line 311): the stored value is
falsy, or its `str()` strips to empty. -/
def overwritable (cur : Option PyVal) : Bool :=
  ¬ optTruthy cur || pyStrip (optStr cur) = ""

/-- The merge loop of `process_links` (lines 310–312):
`for k, v in synth.items(): if v and (not data.get(k) or str(data.get(k)).strip() == ""): data[k] = v`. -/
def merge_synth (data synth : Rec') : Rec' :=
  synth.foldl
    (fun d kv =>
      if pvTruthy kv.2 && overwritable (getKey d kv.1) then setKey d kv.1 kv.2 else d)
    data

/-- The output filter of `deep_synthesize_fields` (lines 254–259): keep only
schema fields the model populated with a non-`None`, non-blank value. -/
def filter_synth (synth : Rec') : Rec' :=
  REQUIRED_FIELDS.filterMap (fun k =>
    match getKey synth k with
    | Option.none => Option.none
    | some v =>
      if v ≠ PyVal.null && pyStrip (pvStr v) ≠ "" then some (k, v) else Option.none)

/-- `deep_synthesize_fields` as a function of its oracles: with no
candidate URLs, or an empty GPT synthesis, it returns `{}`; otherwise the
filtered synthesis.  (Query construction, SerpAPI and the page fetches
only influence the oracles.) -/
def deep_synthesize_fields (hasCandidates : Bool) (gptSynth : Rec') : Rec' :=
  if ¬ hasCandidates then []
  else if gptSynth.isEmpty then []
  else filter_synth gptSynth

/-- The hard-coded fallback record of `process_links` (lines 321–350) built
from the page `<title>` and the source URL. -/
def fallback_record (title : Option String) (url : String) : Rec' :=
  [("event_name", PyVal.s (title.getD "")),
   ("event_date", PyVal.s ""), ("event_type", PyVal.s ""),
   ("description", PyVal.s ""), ("venue_name", PyVal.s ""),
   ("venue_address", PyVal.s ""), ("venue_city", PyVal.s ""),
   ("venue_state", PyVal.s ""), ("venue_zip", PyVal.s ""),
   ("venue_parking", PyVal.s ""), ("venue_website", PyVal.s ""),
   ("registration_url", PyVal.s url), ("sponsorship_url", PyVal.s ""),
   ("sponsorship_tiers", PyVal.s ""), ("sponsorship_contact", PyVal.s ""),
   ("past_sponsors", PyVal.s ""), ("dress_code", PyVal.s ""),
   ("organizer_name", PyVal.s ""), ("organizer_ein", PyVal.s ""),
   ("organizer_website", PyVal.s ""), ("organizer_email", PyVal.s ""),
   ("organizer_phone", PyVal.s ""), ("organizer_contact_name", PyVal.s ""),
   ("organizer_contact_title", PyVal.s ""), ("organizer_contact_email", PyVal.s ""),
   ("organizer_facebook", PyVal.s ""), ("organizer_instagram", PyVal.s "")]

/-- Line 355–356: `if not data.get("registration_url"): data["registration_url"] = url`. -/
def ensure_registration (url : String) (data : Rec') : Rec' :=
  if ¬ optTruthy (getKey data "registration_url") then
    setKey data "registration_url" (PyVal.s url)
  else data

/-- The field list of the `clean_text` loop (lines 358–366); note that
`registration_url` and `event_date` are deliberately not in it. -/
def CLEAN_FIELDS : List String :=
  ["event_name", "event_type", "description", "venue_name", "venue_address",
   "venue_city", "venue_state", "venue_zip", "venue_parking", "venue_website",
   "sponsorship_url", "sponsorship_tiers", "sponsorship_contact",
   "past_sponsors", "dress_code", "organizer_name", "organizer_ein",
   "organizer_website", "organizer_email", "organizer_phone",
   "organizer_contact_name", "organizer_contact_title", "organizer_contact_email",
   "organizer_facebook", "organizer_instagram"]

/-- One step of the `clean_text` loop:
`if k in data: data[k] = clean_text(data[k])`. -/
def clean_step (d : Rec') (k : String) : Rec' :=
  match getKey d k with
  | Option.none => d
  | some v =>
    match clean_text (some v) with
    | Option.none => setKey d k PyVal.null
    | some v' => setKey d k v'

/-- Lines 357–368: `data["event_date"] = normalize_date(...)` (the fuzzy
`dateutil` parse is the oracle `nd`) followed by the `clean_text` loop
over `CLEAN_FIELDS`. -/
def finalize_record (nd : Option PyVal → Option String) (data : Rec') : Rec' :=
  let d1 := setKey data "event_date"
    (match nd (getKey data "event_date") with
     | Option.none => PyVal.null
     | some str => PyVal.s str)
  CLEAN_FIELDS.foldl clean_step d1

/-- The external-input oracles of one `process_links` iteration. -/
structure LinkOracle where
  /-- `fetch_page(url)` (`None` = both fetch strategies failed). -/
  html : Option String
  /-- `parse_event_with_gpt(html, url)`; `Except.error` is the logged
  "unexpected error during parse" path. -/
  parse : Except String Rec'
  /-- Did `deep_synthesize_fields` run to completion (the `except` around
  lines 308–314 catches anything it raised)? -/
  deepOk : Bool
  /-- Did the deep-search queries produce any candidate URL? -/
  deepCandidates : Bool
  /-- What the synthesis GPT call returned (pre-filter). -/
  deepGpt : Rec'
  /-- `soup.title.string.strip()` of the fallback path (`None` = no title). -/
  title : Option String
  /-- Did building the fallback record raise (logged and skipped)? -/
  fallbackOk : Bool
  /-- `normalize_date`, i.e. `dateutil.parser.parse(·, fuzzy=True)`. -/
  nd : Option PyVal → Option String

/-- Outcome of one `process_links` iteration. -/
structure LinkOutcome where
  /-- Did the missing-field count trigger deep search (line 306)? -/
  deepInvoked : Bool
  /-- The record handed to `insert_organizer` / `insert_event`
  (`Option.none` = the iteration `continue`d before persisting). -/
  persisted : Option Rec'
deriving DecidableEq

/-- Lines 306–314: when the missing-field count meets the threshold,
deep-synthesize and merge (an exception inside the `try` leaves the data
as it was). -/
def escalate_merge (o : LinkOracle) (data0 : Rec') : Rec' :=
  if decide (MISSING_FIELDS_THRESHOLD ≤ count_missing_fields data0) then
    if o.deepOk then merge_synth data0 (deep_synthesize_fields o.deepCandidates o.deepGpt)
    else data0
  else data0

/-- Lines 317–354: when every schema field is still missing, substitute
the fallback record (or `continue` if building it raised). -/
def after_fallback (url : String) (o : LinkOracle) (data1 : Rec') : Option Rec' :=
  if count_missing_fields data1 = REQUIRED_FIELDS.length then
    if o.fallbackOk then some (fallback_record o.title url) else Option.none
  else some data1

/-- One iteration of the `process_links` loop (lines 291–378) over a raw
link with URL `url`, as a function of its oracles. -/
def process_one (url : String) (o : LinkOracle) : LinkOutcome :=
  match o.html with
  | Option.none => { deepInvoked := false, persisted := Option.none }
  | some _ =>
    match o.parse with
    | Except.error _ => { deepInvoked := false, persisted := Option.none }
    | Except.ok data0 =>
      let invoked := decide (MISSING_FIELDS_THRESHOLD ≤ count_missing_fields data0)
      match after_fallback url o (escalate_merge o data0) with
      | Option.none => { deepInvoked := invoked, persisted := Option.none }
      | some data2 =>
        { deepInvoked := invoked,
          persisted := some (finalize_record o.nd (ensure_registration url data2)) }

/-! ## `ein_enrichment.py`: search providers and the EIN locator

The two provider HTTP transports are oracles returning either a raised
exception (`Except.error`) or the JSON items of the response; everything
the repository does with those responses is translated. -/

/-- A normalized search result (`{title, link, snippet}`). -/
structure SResult where
  title : Option String
  link : Option String
  snippet : Option String
deriving DecidableEq

/-- One entry of SerpAPI's `organic_results`. -/
structure SerpItem where
  title : Option String
  link : Option String
  url : Option String
  snippet : Option String
deriving DecidableEq

/-- One entry of Google CSE's `items`. -/
structure CseItem where
  title : Option String
  link : Option String
  snippet : Option String
deriving DecidableEq

/-- Truthiness of an optional string (`None` and `""` are falsy). -/
def strOptTruthy : Option String → Bool
  | Option.none => false
  | some str => str ≠ ""

/-- `a or b` on optional strings. -/
def pyOr (a b : Option String) : Option String :=
  if strOptTruthy a then a else b

/-- The provider environment of one run. -/
structure SearchEnv where
  /-- `SERPAPI_KEY` set and the `serpapi` package importable. -/
  serpAvailable : Bool
  /-- `GoogleSearch(params).get_dict()["organic_results"]` per query. -/
  serpResp : String → Except Unit (List SerpItem)
  /-- `GOOGLE_API_KEY` and `GOOGLE_CSE_ID` both set. -/
  cseKeysAvailable : Bool
  /-- the `googleapiclient` package importable. -/
  cseClientAvailable : Bool
  /-- the client-library CSE response per query. -/
  cseClientResp : String → Except Unit (List CseItem)
  /-- the HTTP-fallback CSE response per query. -/
  cseHttpResp : String → Except Unit (List CseItem)

/-- `ein_enrichment.serpapi_search(query, num_results)`: missing key or
client → `[]`; provider exception swallowed → `[]`; else each organic
result mapped to `{title, link: item.link or item.url, snippet: item.snippet or ""}`. -/
def serpapi_search (env : SearchEnv) (query : String) : List SResult :=
  if ¬ env.serpAvailable then []
  else
    match env.serpResp query with
    | Except.error _ => []
    | Except.ok items =>
      items.map (fun it =>
        { title := it.title, link := pyOr it.link it.url,
          snippet := some ((pyOr it.snippet (some "")).getD "") })

def cseItemToResult (it : CseItem) : SResult :=
  { title := it.title, link := it.link, snippet := some (it.snippet.getD "") }

/-- `ein_enrichment.google_cse_search(query, num_results)`: missing keys →
`[]`; client library tried first, its exception falling through to the
HTTP request, whose exception yields `[]`. -/
def google_cse_search (env : SearchEnv) (query : String) : List SResult :=
  if ¬ env.cseKeysAvailable then []
  else
    let httpPath : List SResult :=
      match env.cseHttpResp query with
      | Except.error _ => []
      | Except.ok items => items.map cseItemToResult
    if env.cseClientAvailable then
      match env.cseClientResp query with
      | Except.ok items => items.map cseItemToResult
      | Except.error _ => httpPath
    else httpPath

/-- `ein_enrichment.unified_search(query, num_results)`: SerpAPI first,
Google CSE exactly when SerpAPI returned no results. -/
def unified_search (env : SearchEnv) (query : String) : List SResult :=
  let results := serpapi_search env query
  if ¬ results.isEmpty then results else google_cse_search env query

/-! ### The EIN pattern `\b\d{2}-\d{7}\b` -/

/-- Python `\w` on the ASCII inputs handled here. -/
def wordChar (c : Char) : Bool := c.isAlpha || isDig c || c = '_'

/-- Does `cs` begin with `\d{2}-\d{7}` followed by a `\b` boundary? -/
def einHere (cs : List Char) : Bool :=
  match cs with
  | d1 :: d2 :: '-' :: d3 :: d4 :: d5 :: d6 :: d7 :: d8 :: d9 :: rest =>
    isDig d1 && isDig d2 && isDig d3 && isDig d4 && isDig d5 &&
    isDig d6 && isDig d7 && isDig d8 && isDig d9 &&
    (match rest with
     | [] => true
     | c :: _ => ¬ wordChar c)
  | _ => false

/-- `EIN_REGEX.search`: leftmost match of `\b\d{2}-\d{7}\b`, scanning with
the previous character to decide the left word boundary. -/
def einScan : Option Char → List Char → Option String
  | _, [] => Option.none
  | prev, c :: rest =>
    if (match prev with
        | Option.none => true
        | some p => ¬ wordChar p) && einHere (c :: rest) then
      some ⟨(c :: rest).take 10⟩
    else einScan (some c) rest

/-- First `\b\d{2}-\d{7}\b` match in a string. -/
def einSearch (s : String) : Option String := einScan Option.none s.data

/-- `ein_enrichment.extract_ein_from_snippet(snippet)`. -/
def extract_ein_from_snippet (snippet : String) : Option String :=
  if snippet = "" then Option.none else einSearch snippet

/-- First `some` produced by `f` over a list (the shape of both
first-match loops in `search_site_for_ein`). -/
def firstSome {α β : Type} (f : α → Option β) : List α → Option β
  | [] => Option.none
  | x :: xs =>
    match f x with
    | some y => some y
    | Option.none => firstSome f xs

/-- `ein_enrichment.search_site_for_ein(query)`: scan each result's
`snippet + " " + title` for the EIN pattern; failing that, fetch each
result link (`fetch` oracle: `Except.error` = request raised, swallowed)
and scan the page text. -/
def search_site_for_ein (env : SearchEnv) (fetch : String → Except Unit String)
    (query : String) : Option String :=
  let results := unified_search env query
  match firstSome
      (fun r => extract_ein_from_snippet ((r.snippet.getD "") ++ " " ++ (r.title.getD "")))
      results with
  | some ein => some ein
  | Option.none =>
    firstSome
      (fun r =>
        match r.link with
        | Option.none => Option.none
        | some link =>
          match fetch link with
          | Except.error _ => Option.none
          | Except.ok html => if html = "" then Option.none else einSearch html)
      results

/-- The four query variants of `search_ein_multisource`, in priority order. -/
def ein_queries (org_name : String) : List String :=
  [org_name ++ " site:projects.propublica.org OR site:apps.irs.gov",
   org_name ++ " site:causeiq.com",
   org_name ++ " site:charitynavigator.org",
   org_name ++ " nonprofit EIN"]

/-- `ein_enrichment.search_ein_multisource(org_name)`. -/
def search_ein_multisource (env : SearchEnv) (fetch : String → Except Unit String)
    (org_name : String) : Option String :=
  match search_site_for_ein env fetch
      (org_name ++ " site:projects.propublica.org OR site:apps.irs.gov") with
  | some ein => some ein
  | Option.none =>
    match search_site_for_ein env fetch (org_name ++ " site:causeiq.com") with
    | some ein => some ein
    | Option.none =>
      match search_site_for_ein env fetch (org_name ++ " site:charitynavigator.org") with
      | some ein => some ein
      | Option.none => search_site_for_ein env fetch (org_name ++ " nonprofit EIN")

/-! ## `ein_enrichment.enrich_data`: the batch enrichment loop

`fetch_organizers_to_enrich` / `fetch_events_to_enrich` are `SELECT ...
LIMIT 8` calls against the live store; they are modelled as oracles
giving the batch returned on each pass (the store changes between
passes, so the oracle is indexed by the pass number).  Each selected
record is processed unconditionally inside the pass; `processed` is
compared against `limit` only at the `while` head, and the loop breaks
when a pass selects nothing. -/

def enrich_go (fO fE : Nat → List Nat) (limit : Nat) (pass processed : Nat) : Nat :=
  if _hw : processed < limit then
    -- `if not orgs and not evs: break`, i.e. both batches empty
    if _hb : (fO pass).length + (fE pass).length = 0 then processed
    else enrich_go fO fE limit (pass + 1) (processed + (fO pass).length + (fE pass).length)
  else processed
termination_by limit - processed
decreasing_by omega

/-- `ein_enrichment.enrich_data(limit)`: total records processed. -/
def enrich_data (fO fE : Nat → List Nat) (limit : Nat) : Nat :=
  enrich_go fO fE limit 0 0

/-! ## General lemmas about the dict and search primitives -/

theorem getKey_setKey_self (d : Rec') (k : String) (v : PyVal) :
    getKey (setKey d k v) k = some v := by
  induction d with
  | nil => simp [setKey, getKey, List.find?]
  | cons kv rest ih =>
    by_cases h : kv.1 = k
    · simp [setKey, h, getKey, List.find?]
    · simp only [setKey]
      rw [if_neg h]
      simpa [getKey, List.find?, h] using ih

theorem getKey_setKey_ne (d : Rec') (k k' : String) (v : PyVal) (h : k ≠ k') :
    getKey (setKey d k v) k' = getKey d k' := by
  induction d with
  | nil => simp [setKey, getKey, List.find?, h]
  | cons kv rest ih =>
    by_cases hk : kv.1 = k
    · simp [setKey, hk, getKey, List.find?, h, hk ▸ h]
    · simp only [setKey]
      rw [if_neg hk]
      by_cases hk' : kv.1 = k'
      · simp [getKey, List.find?, hk']
      · simpa [getKey, List.find?, hk'] using ih

theorem find?_append {α : Type} (l₁ l₂ : List α) (p : α → Bool) :
    (l₁ ++ l₂).find? p =
      match l₁.find? p with
      | some x => some x
      | Option.none => l₂.find? p := by
  induction l₁ with
  | nil => simp [List.find?]
  | cons x rest ih =>
    by_cases h : p x
    · simp [List.find?, h]
    · simp only [List.cons_append, List.find?, h]
      exact ih

/-! ## C9: the identity hash is not injective -/

/-- C9: `generate_uid` drops every `None`/empty key field and joins the
rest with an unescaped `"-"`, so distinct key-field tuples collide:
`generate_uid("a-b", None) == generate_uid("a", "b")`, and a value moving
out of a missing first field collides as well
(`generate_uid(None, "x") == generate_uid("x", None)`).  The first two
conjuncts exhibit the joined preimages; the rest are hash collisions of
distinct tuples. -/
theorem uid_collisions_exist :
    generate_uid_raw [some (PyVal.s "a"), some (PyVal.s "b")] = "a-b" ∧
    generate_uid_raw [Option.none, some (PyVal.s ""), some (PyVal.s "x")] = "x" ∧
    generate_uid [some (PyVal.s "a-b"), Option.none] =
      generate_uid [some (PyVal.s "a"), some (PyVal.s "b")] ∧
    generate_uid [Option.none, some (PyVal.s "x")] =
      generate_uid [some (PyVal.s "x"), Option.none] ∧
    [some (PyVal.s "a-b"), (Option.none : Option PyVal)] ≠
      [some (PyVal.s "a"), some (PyVal.s "b")] ∧
    [Option.none, some (PyVal.s "x")] ≠ [some (PyVal.s "x"), (Option.none : Option PyVal)] := by
  refine ⟨by decide, by decide, by decide, by decide, by decide, by decide⟩

/-! ## C2: stability of the identity hash under case/whitespace variation -/

/-- Two key-field values are case/whitespace-equivalent in the sense the
normalization actually implements: they agree on Python truthiness, and
when truthy they agree after `str(·).lower().strip()`. -/
def key_equiv (a b : Option PyVal) : Prop :=
  optTruthy a = optTruthy b ∧
  (optTruthy a = true → pyStrip (pyLower (optStr a)) = pyStrip (pyLower (optStr b)))

theorem generate_uid_raw_congr :
    ∀ args args' : List (Option PyVal), List.Forall₂ key_equiv args args' →
      generate_uid_raw args = generate_uid_raw args' := by
  have aux : ∀ args args' : List (Option PyVal), List.Forall₂ key_equiv args args' →
      (args.filterMap (fun a =>
        if optTruthy a then some (pyStrip (pyLower (optStr a))) else Option.none)) =
      (args'.filterMap (fun a =>
        if optTruthy a then some (pyStrip (pyLower (optStr a))) else Option.none)) := by
    intro args args' h
    induction h with
    | nil => rfl
    | @cons a b l₁ l₂ hab htl ih =>
      simp only [List.filterMap_cons]
      rw [← hab.1]
      by_cases ht : optTruthy a = true
      · rw [if_pos ht, if_pos ht, hab.2 ht, ih]
      · rw [if_neg ht, if_neg ht, ih]
  intro args args' h
  unfold generate_uid_raw
  rw [aux args args' h]

/-- C2 (amended): the identity hash is stable under letter-case and
leading/trailing-whitespace variation of each key field, provided the
variation preserves each field's Python truthiness (no field flips
between empty/`None` and non-empty, and internal whitespace is
untouched): pointwise `key_equiv` tuples hash identically.  In
particular the spec's scenario holds: inserting
`(name="Example Gala", website="example.org")` and then
`(name=" EXAMPLE GALA ", website="example.org")` returns the identical
organizer id and leaves the table unchanged. -/
theorem uid_case_ws_variation :
    (∀ args args' : List (Option PyVal), List.Forall₂ key_equiv args args' →
      generate_uid args = generate_uid args') ∧
    (insert_organizer
        [("organizer_name", PyVal.s " EXAMPLE GALA "), ("organizer_website", PyVal.s "example.org")]
        (insert_organizer
          [("organizer_name", PyVal.s "Example Gala"), ("organizer_website", PyVal.s "example.org")]
          { rows := [], nextId := 1 }).2).1 =
      (insert_organizer
        [("organizer_name", PyVal.s "Example Gala"), ("organizer_website", PyVal.s "example.org")]
        { rows := [], nextId := 1 }).1 ∧
    (insert_organizer
        [("organizer_name", PyVal.s " EXAMPLE GALA "), ("organizer_website", PyVal.s "example.org")]
        (insert_organizer
          [("organizer_name", PyVal.s "Example Gala"), ("organizer_website", PyVal.s "example.org")]
          { rows := [], nextId := 1 }).2).2 =
      (insert_organizer
        [("organizer_name", PyVal.s "Example Gala"), ("organizer_website", PyVal.s "example.org")]
        { rows := [], nextId := 1 }).2 := by
  refine ⟨?_, by decide, by decide⟩
  intro args args' h
  unfold generate_uid
  rw [generate_uid_raw_congr args args' h]

/-- C2 witness: the general stability statement applied to the spec's
own scenario tuple. -/
theorem uid_case_ws_variation_witness :
    generate_uid [some (PyVal.s "Example Gala"), some (PyVal.s "example.org")] =
      generate_uid [some (PyVal.s " EXAMPLE GALA "), some (PyVal.s "example.org")] :=
  uid_case_ws_variation.1 _ _
    (List.Forall₂.cons ⟨by decide, fun _ => by decide⟩
      (List.Forall₂.cons ⟨by decide, fun _ => by decide⟩ List.Forall₂.nil))

/-- C2 counterexample: as universally stated over all tuples that
"differ only by letter case and/or whitespace", the claim is false.
`("Example  Gala", "example.org")` differs from
`("Example Gala", "example.org")` only by one internal space, yet the
hashes differ (the normalization strips only leading/trailing
whitespace); and `("a", " ")` differs from `("a", "")` only by
whitespace, yet the hashes differ (a whitespace-only field survives the
truthiness filter as an empty joined component while an empty field is
dropped). -/
theorem uid_case_ws_counterexample :
    generate_uid [some (PyVal.s "Example  Gala"), some (PyVal.s "example.org")] ≠
      generate_uid [some (PyVal.s "Example Gala"), some (PyVal.s "example.org")] ∧
    generate_uid [some (PyVal.s "a"), some (PyVal.s " ")] ≠
      generate_uid [some (PyVal.s "a"), some (PyVal.s "")] := by
  refine ⟨by decide, by decide⟩

/-! ## C1: the upsert is idempotent with a first-write-wins policy -/

theorem insert_organizer_idem (data data' : Rec') (db : OrgDB)
    (h : generate_uid [getKey data' "organizer_name", getKey data' "organizer_website"] =
         generate_uid [getKey data "organizer_name", getKey data "organizer_website"]) :
    insert_organizer data' (insert_organizer data db).2 = insert_organizer data db := by
  unfold insert_organizer
  rw [h]
  rcases hf : db.rows.find?
      (fun r => r.uid =
        generate_uid [getKey data "organizer_name", getKey data "organizer_website"]) with _ | r
  · simp only [hf, find?_append, List.find?]
    simp
  · simp only [hf]

theorem insert_event_idem (edata edata' : Rec') (oid oid' : Option Nat) (edb : EvDB)
    (h : generate_uid [getKey edata' "event_name",
           normalize_blank_date (getKey edata' "event_date"), getKey edata' "venue_name"] =
         generate_uid [getKey edata "event_name",
           normalize_blank_date (getKey edata "event_date"), getKey edata "venue_name"]) :
    insert_event edata' oid' (insert_event edata oid edb) = insert_event edata oid edb := by
  simp only [insert_event]
  rw [h]
  rcases hf : edb.rows.find?
      (fun r => r.uid =
        generate_uid [getKey edata "event_name",
          normalize_blank_date (getKey edata "event_date"), getKey edata "venue_name"]) with _ | r
  · simp only [hf, find?_append, List.find?]
    simp
  · simp only [hf]

/-- C1: the upsert is idempotent with first-write-wins.  A second
`insert_organizer` with an identity-key-equivalent record (same
`generate_uid` over `(organizer_name, organizer_website)`) returns the
id of the first call and leaves the table — every stored field — as it
was; a second `insert_event` with an identity-key-equivalent record
(same `generate_uid` over `(event_name, normalized event_date,
venue_name)`) changes nothing at all (and, both calls returning Python
`None`, trivially returns the same id). -/
theorem uid_upsert_first_write_wins (data data' : Rec') (db : OrgDB)
    (h : generate_uid [getKey data' "organizer_name", getKey data' "organizer_website"] =
         generate_uid [getKey data "organizer_name", getKey data "organizer_website"])
    (edata edata' : Rec') (oid oid' : Option Nat) (edb : EvDB)
    (he : generate_uid [getKey edata' "event_name",
            normalize_blank_date (getKey edata' "event_date"), getKey edata' "venue_name"] =
          generate_uid [getKey edata "event_name",
            normalize_blank_date (getKey edata "event_date"), getKey edata "venue_name"]) :
    (insert_organizer data' (insert_organizer data db).2).1 =
      (insert_organizer data db).1 ∧
    (insert_organizer data' (insert_organizer data db).2).2 =
      (insert_organizer data db).2 ∧
    insert_event edata' oid' (insert_event edata oid edb) = insert_event edata oid edb :=
  ⟨congrArg Prod.fst (insert_organizer_idem data data' db h),
   congrArg Prod.snd (insert_organizer_idem data data' db h),
   insert_event_idem edata edata' oid oid' edb he⟩

/-- C1 witness: a concrete organizer resolved twice under a
case/whitespace variant, and a concrete event re-inserted with a blank
date dropped from the key either way. -/
theorem uid_upsert_first_write_wins_witness :
    (insert_organizer
        [("organizer_name", PyVal.s " EXAMPLE GALA "), ("organizer_website", PyVal.s "example.org")]
        (insert_organizer
          [("organizer_name", PyVal.s "Example Gala"), ("organizer_website", PyVal.s "example.org"),
           ("organizer_email", PyVal.s "info@example.org")]
          { rows := [], nextId := 1 }).2).1 =
      (insert_organizer
        [("organizer_name", PyVal.s "Example Gala"), ("organizer_website", PyVal.s "example.org"),
         ("organizer_email", PyVal.s "info@example.org")]
        { rows := [], nextId := 1 }).1 ∧
    (insert_organizer
        [("organizer_name", PyVal.s " EXAMPLE GALA "), ("organizer_website", PyVal.s "example.org")]
        (insert_organizer
          [("organizer_name", PyVal.s "Example Gala"), ("organizer_website", PyVal.s "example.org"),
           ("organizer_email", PyVal.s "info@example.org")]
          { rows := [], nextId := 1 }).2).2 =
      (insert_organizer
        [("organizer_name", PyVal.s "Example Gala"), ("organizer_website", PyVal.s "example.org"),
         ("organizer_email", PyVal.s "info@example.org")]
        { rows := [], nextId := 1 }).2 ∧
    insert_event [("event_name", PyVal.s " GALA NIGHT "), ("venue_name", PyVal.s "Hall")]
        (some 2)
        (insert_event
          [("event_name", PyVal.s "Gala Night"), ("event_date", PyVal.s ""),
           ("venue_name", PyVal.s "Hall")]
          (some 1) { rows := [], nextId := 1 }) =
      insert_event
        [("event_name", PyVal.s "Gala Night"), ("event_date", PyVal.s ""),
         ("venue_name", PyVal.s "Hall")]
        (some 1) { rows := [], nextId := 1 } :=
  uid_upsert_first_write_wins
    [("organizer_name", PyVal.s "Example Gala"), ("organizer_website", PyVal.s "example.org"),
     ("organizer_email", PyVal.s "info@example.org")]
    [("organizer_name", PyVal.s " EXAMPLE GALA "), ("organizer_website", PyVal.s "example.org")]
    { rows := [], nextId := 1 } (by decide)
    [("event_name", PyVal.s "Gala Night"), ("event_date", PyVal.s ""),
     ("venue_name", PyVal.s "Hall")]
    [("event_name", PyVal.s " GALA NIGHT "), ("venue_name", PyVal.s "Hall")]
    (some 1) (some 2) { rows := [], nextId := 1 } (by decide)

/-! ## C3: the escalation merge never overwrites known data -/

/-- The one-step behaviour of the merge fold: at every key the result is
either the untouched input value, or — only when the input slot was
overwritable — a truthy value drawn from the supplement. -/
theorem merge_synth_spec (synth : Rec') :
    ∀ (data : Rec') (k : String),
      getKey (merge_synth data synth) k = getKey data k ∨
      (overwritable (getKey data k) = true ∧
        ∃ v, (k, v) ∈ synth ∧ pvTruthy v = true ∧
          getKey (merge_synth data synth) k = some v) := by
  induction synth with
  | nil => intro data k; left; rfl
  | cons kv rest ih =>
    intro data k
    have hstep : merge_synth data (kv :: rest) =
        merge_synth
          (if pvTruthy kv.2 && overwritable (getKey data kv.1) then setKey data kv.1 kv.2
           else data)
          rest := by
      simp [merge_synth]
    by_cases hc : pvTruthy kv.2 && overwritable (getKey data kv.1)
    · rw [hstep, if_pos hc]
      rcases ih (setKey data kv.1 kv.2) k with h1 | ⟨how, v, hv, ht, hg⟩
      · by_cases hk : kv.1 = k
        · right
          subst hk
          rw [getKey_setKey_self] at h1
          exact ⟨(Bool.and_eq_true .. ▸ hc).2, kv.2, by simp, (Bool.and_eq_true .. ▸ hc).1, h1⟩
        · left
          rw [h1, getKey_setKey_ne data kv.1 k kv.2 hk]
      · by_cases hk : kv.1 = k
        · right
          subst hk
          exact ⟨(Bool.and_eq_true .. ▸ hc).2, v, List.mem_cons_of_mem _ hv, ht, hg⟩
        · right
          rw [getKey_setKey_ne data kv.1 k kv.2 hk] at how
          exact ⟨how, v, List.mem_cons_of_mem _ hv, ht, hg⟩
    · rw [hstep, if_neg hc]
      rcases ih data k with h1 | ⟨how, v, hv, ht, hg⟩
      · left; exact h1
      · right; exact ⟨how, v, List.mem_cons_of_mem _ hv, ht, hg⟩

/-- A stored non-blank string field is not overwritable. -/
theorem not_overwritable_of_nonblank (str : String) (hs : pyStrip str ≠ "") :
    overwritable (some (PyVal.s str)) = false := by
  have hne : str ≠ "" := fun he => hs (by rw [he]; rfl)
  simp [overwritable, optTruthy, pvTruthy, optStr, pvStr, hne, hs]

/-- Every field of the supplement built by `deep_synthesize_fields` is a
non-`None` value that is non-blank after stripping. -/
theorem filter_synth_values (raw : Rec') (k : String) (v : PyVal)
    (h : getKey (filter_synth raw) k = some v) :
    v ≠ PyVal.null ∧ pyStrip (pvStr v) ≠ "" := by
  have hfind : ∃ p, List.find? (fun p => p.1 = k) (filter_synth raw) = some p ∧ p.2 = v := by
    unfold getKey at h
    rcases hf : List.find? (fun p => p.1 = k) (filter_synth raw) with _ | p
    · rw [hf] at h; exact absurd h (by simp)
    · rw [hf] at h
      exact ⟨p, hf, Option.some.inj h⟩
  rcases hfind with ⟨p, hf, hpv⟩
  have hp : p ∈ filter_synth raw := List.mem_of_find?_eq_some hf
  unfold filter_synth at hp
  rcases List.mem_filterMap.mp hp with ⟨k', _, hmk⟩
  rcases hg : getKey raw k' with _ | v'
  · rw [hg] at hmk
    exact absurd hmk (by simp)
  · rw [hg] at hmk
    by_cases hcond : (decide (v' ≠ PyVal.null) && decide (pyStrip (pvStr v') ≠ "")) = true
    · simp only [hcond, if_true] at hmk
      have hkv : (k', v') = p := Option.some.inj hmk
      have hv2 : v' = v := by rw [← hpv, ← hkv]
      subst hv2
      exact ⟨of_decide_eq_true (Bool.and_eq_true .. ▸ hcond).1,
             of_decide_eq_true (Bool.and_eq_true .. ▸ hcond).2⟩
    · have hcf : (decide (v' ≠ PyVal.null) && decide (pyStrip (pvStr v') ≠ "")) = false :=
        Bool.eq_false_iff.mpr hcond
      simp [hcf] at hmk
      obtain ⟨⟨h1, h2⟩, hkv⟩ := hmk
      have hv2 : v' = v := by rw [← hpv, ← hkv]
      subst hv2
      exact ⟨h1, h2⟩

/-- C3: the escalation merge of `process_links` never overwrites known
data.  Every field of the original record whose value is a string that
is non-empty after stripping is left exactly as it was; any field the
merge does change was overwritable (absent, `None`, or
whitespace-empty) and receives a truthy value listed in the supplement;
and the supplement `deep_synthesize_fields` builds contains only fields
the model populated with a non-`None` value that is non-blank after
stripping. -/
theorem merge_never_overwrites (data synth raw : Rec') :
    (∀ k str, getKey data k = some (PyVal.s str) → pyStrip str ≠ "" →
      getKey (merge_synth data synth) k = some (PyVal.s str)) ∧
    (∀ k, getKey (merge_synth data synth) k ≠ getKey data k →
      overwritable (getKey data k) = true ∧
      ∃ v, (k, v) ∈ synth ∧ pvTruthy v = true ∧
        getKey (merge_synth data synth) k = some v) ∧
    (∀ k v, getKey (filter_synth raw) k = some v →
      v ≠ PyVal.null ∧ pyStrip (pvStr v) ≠ "") := by
  refine ⟨?_, ?_, ?_⟩
  · intro k str hk hs
    rcases merge_synth_spec synth data k with h1 | ⟨how, _, _, _, _⟩
    · rw [h1, hk]
    · rw [hk, not_overwritable_of_nonblank str hs] at how
      exact absurd how (by simp)
  · intro k hne
    rcases merge_synth_spec synth data k with h1 | h2
    · exact absurd h1 hne
    · exact h2
  · intro k v hk
    exact filter_synth_values raw k v hk

/-- C3 witness: merging a supplement into a record whose `venue_name` is
known leaves the known value untouched while the blank `description`
is filled. -/
theorem merge_never_overwrites_witness :
    getKey (merge_synth [("venue_name", PyVal.s "Hall"), ("description", PyVal.s "")]
        [("venue_name", PyVal.s "Other Hall"), ("description", PyVal.s "A gala.")])
      "venue_name" = some (PyVal.s "Hall") :=
  (merge_never_overwrites [("venue_name", PyVal.s "Hall"), ("description", PyVal.s "")]
      [("venue_name", PyVal.s "Other Hall"), ("description", PyVal.s "A gala.")] []).1
    "venue_name" "Hall" (by decide) (by decide)

/-! ## C5: the escalation threshold is an exact boundary -/

/-- C5: when the fetch and the single-pass extraction succeed, deep
search is triggered exactly when `count_missing_fields` of the extracted
record meets or exceeds `MISSING_FIELDS_THRESHOLD`; a record with
exactly `threshold` missing fields triggers escalation and a record
with `threshold - 1` does not. -/
theorem escalation_threshold_boundary (url : String) (o : LinkOracle) (data0 : Rec')
    (hh : o.html ≠ Option.none) (hp : o.parse = Except.ok data0) :
    (process_one url o).deepInvoked =
      decide (MISSING_FIELDS_THRESHOLD ≤ count_missing_fields data0) ∧
    (count_missing_fields data0 = MISSING_FIELDS_THRESHOLD →
      (process_one url o).deepInvoked = true) ∧
    (count_missing_fields data0 = MISSING_FIELDS_THRESHOLD - 1 →
      (process_one url o).deepInvoked = false) := by
  have hmain : (process_one url o).deepInvoked =
      decide (MISSING_FIELDS_THRESHOLD ≤ count_missing_fields data0) := by
    rcases hhtml : o.html with _ | html
    · exact absurd hhtml hh
    · rcases haf : after_fallback url o (escalate_merge o data0) with _ | d2 <;>
        simp [process_one, hhtml, hp, haf]
  refine ⟨hmain, ?_, ?_⟩
  · intro hc
    rw [hmain, hc]
    decide
  · intro hc
    rw [hmain, hc]
    decide

/-- A record populating every schema field. -/
def all_fields_filled : Rec' := REQUIRED_FIELDS.map (fun k => (k, PyVal.s "x"))

/-- A record with exactly `MISSING_FIELDS_THRESHOLD` missing fields. -/
def rec_missing4 : Rec' :=
  setKey (setKey (setKey (setKey all_fields_filled "venue_zip" (PyVal.s ""))
    "venue_parking" (PyVal.s "")) "dress_code" (PyVal.s "")) "past_sponsors" (PyVal.s "")

/-- A record with exactly `MISSING_FIELDS_THRESHOLD - 1` missing fields. -/
def rec_missing3 : Rec' :=
  setKey (setKey (setKey all_fields_filled "venue_zip" (PyVal.s ""))
    "venue_parking" (PyVal.s "")) "dress_code" (PyVal.s "")

/-- C5 witness: the boundary at a concrete record with exactly four,
then exactly three, missing fields. -/
theorem escalation_threshold_boundary_witness :
    (process_one "https://example.org/gala"
      { html := some "<html></html>", parse := Except.ok rec_missing4, deepOk := true,
        deepCandidates := false, deepGpt := [], title := Option.none, fallbackOk := true,
        nd := fun _ => Option.none }).deepInvoked = true ∧
    (process_one "https://example.org/gala"
      { html := some "<html></html>", parse := Except.ok rec_missing3, deepOk := true,
        deepCandidates := false, deepGpt := [], title := Option.none, fallbackOk := true,
        nd := fun _ => Option.none }).deepInvoked = false :=
  ⟨(escalation_threshold_boundary "https://example.org/gala" _ rec_missing4
      (by simp) rfl).2.1 (by decide),
   (escalation_threshold_boundary "https://example.org/gala" _ rec_missing3
      (by simp) rfl).2.2 (by decide)⟩

/-! ## C10: every persisted record has a truthy `registration_url` -/

theorem getKey_clean_step_ne (d : Rec') (k k' : String) (h : k ≠ k') :
    getKey (clean_step d k) k' = getKey d k' := by
  rcases hg : getKey d k with _ | v
  · simp [clean_step, hg]
  · rcases hc : clean_text (some v) with _ | v'
    · simp only [clean_step, hg, hc]
      exact getKey_setKey_ne d k k' PyVal.null h
    · simp only [clean_step, hg, hc]
      exact getKey_setKey_ne d k k' v' h

theorem getKey_clean_fold_ne (ks : List String) :
    ∀ (d : Rec') (k : String), k ∉ ks →
      getKey (ks.foldl clean_step d) k = getKey d k := by
  induction ks with
  | nil => intro d k _; rfl
  | cons k0 rest ih =>
    intro d k hk
    rw [List.foldl_cons, ih _ k (fun hm => hk (List.mem_cons_of_mem _ hm))]
    exact getKey_clean_step_ne d k0 k (fun he => hk (he ▸ List.mem_cons_self ..))

/-- `registration_url` is not in the `clean_text` field list, and the
`event_date` write touches a different key, so `finalize_record`
preserves it. -/
theorem finalize_preserves_registration (nd : Option PyVal → Option String) (d : Rec') :
    getKey (finalize_record nd d) "registration_url" = getKey d "registration_url" := by
  unfold finalize_record
  rw [getKey_clean_fold_ne CLEAN_FIELDS _ "registration_url" (by decide)]
  exact getKey_setKey_ne _ "event_date" "registration_url" _ (by decide)

theorem ensure_registration_truthy (url : String) (hu : url ≠ "") (d : Rec') :
    optTruthy (getKey (ensure_registration url d) "registration_url") = true := by
  unfold ensure_registration
  by_cases h : optTruthy (getKey d "registration_url") = true
  · rw [if_neg (by simp [h])]
    exact h
  · rw [if_pos (by simpa using h), getKey_setKey_self]
    simpa [optTruthy, pvTruthy] using hu

/-- Whatever record reaches the persistence step came through
`ensure_registration` and `finalize_record`. -/
theorem process_one_persisted (url : String) (o : LinkOracle) (r : Rec')
    (hp : (process_one url o).persisted = some r) :
    ∃ d2, r = finalize_record o.nd (ensure_registration url d2) := by
  rcases hh : o.html with _ | html
  · simp [process_one, hh] at hp
  · rcases hpar : o.parse with e | data0
    · simp [process_one, hh, hpar] at hp
    · rcases haf : after_fallback url o (escalate_merge o data0) with _ | d2
      · simp [process_one, hh, hpar, haf] at hp
      · simp only [process_one, hh, hpar, haf, Option.some.injEq] at hp
        exact ⟨d2, hp.symm⟩

/-- C10: every record `process_links` hands to persistence has a truthy
`registration_url` (the source URL of a raw link being non-empty):
whenever the field is missing or falsy after extraction, deep synthesis
and fallback, line 355–356 sets it to the source URL, the subsequent
cleaning loop does not touch it, and the total-failure fallback record
also carries the source URL in `registration_url`. -/
theorem registration_url_default (url : String) (o : LinkOracle) (r : Rec')
    (hu : url ≠ "") (hp : (process_one url o).persisted = some r) :
    optTruthy (getKey r "registration_url") = true ∧
    (∀ d : Rec', optTruthy (getKey d "registration_url") = false →
      getKey (ensure_registration url d) "registration_url" = some (PyVal.s url)) ∧
    getKey (fallback_record o.title url) "registration_url" = some (PyVal.s url) := by
  refine ⟨?_, ?_, ?_⟩
  · rcases process_one_persisted url o r hp with ⟨d2, hr⟩
    rw [hr, finalize_preserves_registration]
    exact ensure_registration_truthy url hu d2
  · intro d hd
    unfold ensure_registration
    rw [if_pos (by simp [hd]), getKey_setKey_self]
  · rfl

/-- C10 witness: a link whose extraction left `registration_url` blank is
persisted with the source URL in that field. -/
theorem registration_url_default_witness :
    optTruthy (getKey
      ((process_one "https://example.org/gala"
        { html := some "<html></html>", parse := Except.ok rec_missing3, deepOk := true,
          deepCandidates := false, deepGpt := [], title := Option.none, fallbackOk := true,
          nd := fun _ => Option.none }).persisted.getD [])
      "registration_url") = true :=
  (registration_url_default "https://example.org/gala"
    { html := some "<html></html>", parse := Except.ok rec_missing3, deepOk := true,
      deepCandidates := false, deepGpt := [], title := Option.none, fallbackOk := true,
      nd := fun _ => Option.none }
    ((process_one "https://example.org/gala"
      { html := some "<html></html>", parse := Except.ok rec_missing3, deepOk := true,
        deepCandidates := false, deepGpt := [], title := Option.none, fallbackOk := true,
        nd := fun _ => Option.none }).persisted.getD [])
    (by decide) (by decide)).1

/-! ## C4: the Response Decoder is total -/

theorem parseVal_brace_obj (fuel : Nat) (rest : List Char) (v : JVal) (r : List Char)
    (h : parseVal fuel ('{' :: rest) = some (v, r)) : v.isObj = true := by
  cases fuel with
  | zero => simp [parseVal] at h
  | succ n =>
    have hsk : skipWs ('{' :: rest) = '{' :: rest := by
      simp [skipWs, List.dropWhile_cons, jsonWs]
    rw [parseVal, hsk] at h
    simp only [if_pos rfl] at h
    rcases hm : parseMembers n rest true with _ | fs
    · rw [hm] at h
      exact absurd h (by simp)
    · rw [hm] at h
      have hv : JVal.jobj fs.1 = v := congrArg Prod.fst (Option.some.inj h)
      rw [← hv]
      rfl

theorem json_loads_brace_obj (s : String) (v : JVal)
    (hc : s.data.head? = some '{') (h : json_loads s = some v) : v.isObj = true := by
  have hdat : ∃ rest, s.data = '{' :: rest := by
    rcases hd : s.data with _ | ⟨c, rest⟩
    · rw [hd] at hc; exact absurd hc (by simp)
    · rw [hd] at hc
      exact ⟨rest, by rw [show c = '{' from by simpa using hc]⟩
  rcases hdat with ⟨rest, hrest⟩
  unfold json_loads at h
  rcases hpv : parseVal (s.data.length + 1) s.data with _ | ⟨v0, r⟩
  · rw [hpv] at h
    exact absurd h (by simp)
  · rw [hpv] at h
    by_cases he : (skipWs r).isEmpty
    · simp only [he, if_true] at h
      rw [← Option.some.inj h]
      exact parseVal_brace_obj (s.data.length + 1) rest v0 r (by rw [← hrest, hpv])
    · simp [he] at h

theorem swapQuotes_head (s : String) (h : s.data.head? = some '{') :
    (swapQuotes s).data.head? = some '{' := by
  have : (swapQuotes s).data = s.data.map (fun c => if c = '\'' then '"' else c) := rfl
  rw [this]
  rcases hd : s.data with _ | ⟨c, rest⟩
  · rw [hd] at h; exact absurd h (by simp)
  · rw [hd] at h
    have hc : c = '{' := by simpa using h
    simp [hc]

set_option maxHeartbeats 1000000 in
/-- C4 (amended): for every input string `safe_json` never raises (it is
a total function built from total strategies): it strips code fences
case-insensitively, extracts the first brace-delimited span when the
remainder does not start with `{`, attempts a strict JSON parse, retries
once with single quotes replaced by double quotes, and on continued
failure returns an empty mapping — so the result is always either the
empty mapping or a value the strict parse (or its quote-swapped retry)
actually produced, and whenever the cleaned text begins with `{` the
result is guaranteed to be a mapping.  (When the cleaned remainder is a
valid non-object JSON literal, that value — not a mapping — is
returned; see the counterexample.) -/
theorem safe_json_total_decoder (text : String) :
    (safe_json text = JVal.jobj [] ∨
     json_loads (safe_json_cleaned text) = some (safe_json text) ∨
     (json_loads (safe_json_cleaned text) = Option.none ∧
      json_loads (swapQuotes (safe_json_cleaned text)) = some (safe_json text))) ∧
    ((safe_json_cleaned text).data.head? = some '{' →
      (safe_json text).isObj = true) := by
  by_cases ht : text = ""
  · refine ⟨Or.inl ?_, fun _ => ?_⟩
    · unfold safe_json
      rw [if_pos ht]
    · unfold safe_json
      rw [if_pos ht]
      rfl
  · have hs : safe_json text = safe_json_decode (safe_json_cleaned text) := by
      unfold safe_json
      rw [if_neg ht]
    rcases h1 : json_loads (safe_json_cleaned text) with _ | v1
    · rcases h2 : json_loads (swapQuotes (safe_json_cleaned text)) with _ | v2
      · have hd : safe_json_decode (safe_json_cleaned text) = JVal.jobj [] := by
          unfold safe_json_decode
          rw [h1, h2]
        refine ⟨Or.inl (by rw [hs, hd]), fun _ => by rw [hs, hd]; rfl⟩
      · have hd : safe_json_decode (safe_json_cleaned text) = v2 := by
          unfold safe_json_decode
          rw [h1, h2]
        refine ⟨Or.inr (Or.inr ⟨rfl, by rw [hs, hd]⟩), fun hc => ?_⟩
        rw [hs, hd]
        exact json_loads_brace_obj _ v2 (swapQuotes_head _ hc) h2
    · have hd : safe_json_decode (safe_json_cleaned text) = v1 := by
        unfold safe_json_decode
        rw [h1]
      refine ⟨Or.inr (Or.inl (by rw [hs, hd])), fun hc => ?_⟩
      rw [hs, hd]
      exact json_loads_brace_obj _ v1 hc h1

/-- C4 witness: the spec's own scenario — a fenced model response
decodes to the expected mapping (here: to a mapping at all), via the
theorem's brace-led case. -/
theorem safe_json_total_decoder_witness :
    (safe_json "```json\n\x7b\"event_name\": \"Gala\"\x7d\n```").isObj = true :=
  (safe_json_total_decoder "```json\n\x7b\"event_name\": \"Gala\"\x7d\n```").2 (by rfl)

/-- C4 counterexample: the claim "returns a valid mapping or an empty
mapping" fails as universally stated: for the input `"null"` the
fence-stripped remainder contains no brace, the strict parse succeeds,
and `safe_json` returns JSON `null` (Python `None`) — not a mapping;
likewise `"3"` yields the number `3`. -/
theorem safe_json_nonobject_counterexample :
    safe_json "null" = JVal.jnull ∧
    JVal.isObj (safe_json "null") = false ∧
    safe_json "3" = JVal.jnum "3" ∧
    JVal.isObj (safe_json "3") = false := by
  exact ⟨rfl, rfl, rfl, rfl⟩

/-! ## C6: the EIN locator -/

/-- A provider environment whose first-priority EIN query returns one
result carrying an EIN in its snippet; every other query returns
nothing, and no provider key is configured for the fallback. -/
def ein_scenario_env : SearchEnv :=
  { serpAvailable := true,
    serpResp := fun q =>
      if q = "Example Foundation site:projects.propublica.org OR site:apps.irs.gov" then
        Except.ok [{ title := some "Example Foundation - Nonprofit Explorer",
                     link := some "https://projects.propublica.org/nonprofits/1",
                     url := Option.none,
                     snippet := some "EIN: 12-3456789. Chicago, IL." }]
      else Except.ok [],
    cseKeysAvailable := false,
    cseClientAvailable := false,
    cseClientResp := fun _ => Except.error (),
    cseHttpResp := fun _ => Except.error () }

/-- C6: the EIN locator tries exactly the four query variants of
`search_ein_multisource` in fixed priority order — registry sites, the
registry aggregator, the charity-rating site, then the generic
`"<name> nonprofit EIN"` query — taking the first query whose
`search_site_for_ein` (snippet+title scan of the `\d{2}-\d{7}` pattern
with page-fetch fallback) yields a match; exhausting all four yields
`Option.none` (Python `None`, not an error); and when the first query's
results contain a snippet with `12-3456789`, locating returns exactly
`"12-3456789"`. -/
theorem ein_locator_priority :
    (∀ (env : SearchEnv) (fetch : String → Except Unit String) (name : String),
      search_ein_multisource env fetch name =
        firstSome (search_site_for_ein env fetch) (ein_queries name)) ∧
    (∀ (env : SearchEnv) (fetch : String → Except Unit String) (name ein : String),
      search_site_for_ein env fetch
          (name ++ " site:projects.propublica.org OR site:apps.irs.gov") = some ein →
      search_ein_multisource env fetch name = some ein) ∧
    (∀ (env : SearchEnv) (fetch : String → Except Unit String) (name : String),
      (∀ q ∈ ein_queries name, search_site_for_ein env fetch q = Option.none) →
      search_ein_multisource env fetch name = Option.none) ∧
    search_ein_multisource ein_scenario_env (fun _ => Except.error ())
      "Example Foundation" = some "12-3456789" := by
  refine ⟨?_, ?_, ?_, by rfl⟩
  · intro env fetch name
    rcases h1 : search_site_for_ein env fetch
        (name ++ " site:projects.propublica.org OR site:apps.irs.gov") with _ | e1 <;>
      rcases h2 : search_site_for_ein env fetch (name ++ " site:causeiq.com") with _ | e2 <;>
      rcases h3 : search_site_for_ein env fetch
          (name ++ " site:charitynavigator.org") with _ | e3 <;>
      rcases h4 : search_site_for_ein env fetch (name ++ " nonprofit EIN") with _ | e4 <;>
      simp [search_ein_multisource, ein_queries, firstSome, h1, h2, h3, h4]
  · intro env fetch name ein h
    unfold search_ein_multisource
    rw [h]
  · intro env fetch name h
    unfold search_ein_multisource
    rw [h _ (by simp [ein_queries]), h _ (by simp [ein_queries]),
        h _ (by simp [ein_queries]), h _ (by simp [ein_queries])]

/-- C6 witness: the short-circuit conjunct applied to the scenario
environment, whose first query already carries the EIN. -/
theorem ein_locator_priority_witness :
    search_ein_multisource ein_scenario_env (fun _l => Except.error ())
      "Example Foundation" = some "12-3456789" :=
  ein_locator_priority.2.1 ein_scenario_env (fun _l => Except.error ())
    "Example Foundation" "12-3456789" (by rfl)

/-! ## C7: the multi-provider search client fails over exactly on empty -/

/-- C7: `unified_search` invokes SerpAPI first and returns its results
whenever they are non-empty — in which case the secondary provider's
behaviour is irrelevant (any environment agreeing on the SerpAPI fields
gives the same output); exactly when SerpAPI yields zero results
(including when a provider exception was swallowed into `[]`) it
returns whatever Google CSE returns; and with no working provider the
result is the empty list.  All branches return plain lists: no
exception escapes. -/
theorem unified_search_failover (env env' : SearchEnv) (q : String)
    (hs : env.serpAvailable = env'.serpAvailable) (hr : env.serpResp = env'.serpResp) :
    (serpapi_search env q ≠ [] → unified_search env q = serpapi_search env q) ∧
    (serpapi_search env q = [] → unified_search env q = google_cse_search env q) ∧
    (env.serpResp q = Except.error () → serpapi_search env q = []) ∧
    (serpapi_search env q ≠ [] → unified_search env q = unified_search env' q) ∧
    (env.serpAvailable = false → env.cseKeysAvailable = false →
      unified_search env q = []) := by
  have hserp : serpapi_search env q = serpapi_search env' q := by
    unfold serpapi_search
    rw [hs, hr]
  refine ⟨?_, ?_, ?_, ?_, ?_⟩
  · intro h
    unfold unified_search
    rw [if_pos (by simp [List.isEmpty_iff, h])]
  · intro h
    unfold unified_search
    rw [if_neg (by simp [List.isEmpty_iff, h])]
  · intro h
    by_cases ha : env.serpAvailable <;> simp [serpapi_search, ha, h]
  · intro h
    have h' : ¬ (serpapi_search env' q).isEmpty = true := by
      rw [← hserp]
      simp [List.isEmpty_iff, h]
    unfold unified_search
    rw [hserp, if_pos h', if_pos h']
  · intro h1 h2
    simp [unified_search, serpapi_search, google_cse_search, h1, h2]

/-- A concrete environment whose primary provider answers and whose
secondary is differently configured. -/
def serp_only_env : SearchEnv :=
  { serpAvailable := true,
    serpResp := fun _ =>
      Except.ok [{ title := some "t", link := some "https://x.org", url := Option.none,
                   snippet := some "s" }],
    cseKeysAvailable := true,
    cseClientAvailable := false,
    cseClientResp := fun _ => Except.error (),
    cseHttpResp := fun _ => Except.ok [{ title := some "cse", link := some "https://y.org",
                                         snippet := some "other" }] }

/-- C7 witness: with a responding primary, the unified search returns
exactly the primary's results. -/
theorem unified_search_failover_witness :
    unified_search serp_only_env "gala" = serpapi_search serp_only_env "gala" :=
  (unified_search_failover serp_only_env serp_only_env "gala" rfl rfl).1 (by decide)

/-! ## C8: the enrichment loop budget -/

theorem enrich_go_bound (fO fE : Nat → List Nat) (limit : Nat)
    (hO : ∀ i, (fO i).length ≤ 8) (hE : ∀ i, (fE i).length ≤ 8) :
    ∀ gap pass processed, limit - processed ≤ gap → processed < limit + 16 →
      enrich_go fO fE limit pass processed < limit + 16 := by
  intro gap
  induction gap with
  | zero =>
    intro pass processed hg hp
    rw [enrich_go]
    rw [dif_neg (by omega)]
    exact hp
  | succ n ih =>
    intro pass processed hg hp
    rw [enrich_go]
    by_cases hw : processed < limit
    · rw [dif_pos hw]
      by_cases hb : (fO pass).length + (fE pass).length = 0
      · rw [dif_pos hb]
        exact hp
      · rw [dif_neg hb]
        have h1 := hO pass
        have h2 := hE pass
        apply ih
        · omega
        · omega
    · rw [dif_neg hw]
      exact hp

/-- C8 (amended): the batch enrichment loop terminates — when a pass
selects no organizer and no event it stops immediately (first conjunct
instantiated at the first pass), and the processed-count budget is
checked at each pass boundary — but the budget bounds the processed
count only up to one full pass of overshoot: with the code's batch size
of 8 organizers and 8 events, the total processed is below
`limit + 16`, not below `limit + 1` as claimed. -/
theorem enrich_budget (fO fE : Nat → List Nat) (limit : Nat)
    (hO : ∀ i, (fO i).length ≤ 8) (hE : ∀ i, (fE i).length ≤ 8) :
    enrich_data fO fE limit < limit + 16 ∧
    ((fO 0).length = 0 → (fE 0).length = 0 → enrich_data fO fE limit = 0) := by
  constructor
  · exact enrich_go_bound fO fE limit hO hE limit 0 0 (by omega) (by omega)
  · intro h0 he0
    unfold enrich_data
    rw [enrich_go]
    by_cases hw : 0 < limit
    · rw [dif_pos hw, dif_pos (by omega)]
    · rw [dif_neg hw]

/-- C8 witness: a run whose store never offers anything to enrich
processes fewer than `limit + 16` records. -/
theorem enrich_budget_witness :
    enrich_data (fun _ => []) (fun _ => []) 5 < 5 + 16 :=
  (enrich_budget (fun _ => []) (fun _ => []) 5 (fun _ => by simp) (fun _ => by simp)).1

/-- C8 counterexample: the claim "the number of records processed never
exceeds the budget" is false: with `limit = 2` and a store offering a
full batch of 8 organizers and 8 events, one pass processes 16 records
— the budget is consulted only at the `while` head, never inside a
pass. -/
theorem enrich_budget_counterexample :
    enrich_data (fun _ => [1, 2, 3, 4, 5, 6, 7, 8])
      (fun _ => [9, 10, 11, 12, 13, 14, 15, 16]) 2 = 16 ∧ 2 < 16 := by
  constructor
  · unfold enrich_data
    rw [enrich_go]
    rw [dif_pos (by omega), dif_neg (by simp)]
    rw [enrich_go]
    rw [dif_neg (by simp)]
    decide
  · omega

end EventCatalog
